import Mathlib

/-!
Verification development for the ContractBuddy Iteration Tracker dashboard.

The dashboard is a client-side table of contract-comparison "projects" with
search/risk/user filters, a sort comparator, pagination, a document-viewer
modal and a deviation/risk-summary modal, plus one HTTP route serving a
stored DOCX file.  The definitions below are a shallow embedding of that
code: pure computations become Lean functions, the React state updates
become explicit state-transition functions, the async fetch/render effect
of the document viewer becomes a total function over an explicit outcome
type, and JavaScript numbers are modelled as `ℚ` (none of the modelled
code paths can produce `NaN`/`Infinity` except invalid date parses, which
are modelled as `Option.none`).
-/

namespace ContractDashboard

/-! ## Data model

Embeds the TypeScript interfaces `DeviationRow` and `ProjectRow` and the
string-literal union types.  The closed union "Low" | "Medium" | "High"
becomes an inductive type. -/

inductive RiskLevel where
  | Low
  | Medium
  | High
deriving DecidableEq

/-- One clause-level deviation row (TS interface `DeviationRow`). -/
structure DeviationRow where
  clause : String
  baseline : String
  supplier : String
  deviation : String
  riskLevel : RiskLevel
  recommendation : String
  score : ℚ
deriving DecidableEq

/-- One project row (TS interface `ProjectRow`). -/
structure ProjectRow where
  id : String
  username : String
  projectName : String
  createdAt : String
  updatedAt : String
  riskLevel : RiskLevel
  totalWeightedScore : ℚ
  supplierDocTitle : String
  baselineDocTitle : String
  supplierDocUrl : String
  baselineDocUrl : String
  deviations : List DeviationRow
deriving DecidableEq

/-! ## String helpers

The JavaScript string methods used by the filter are embedded at the
character-list level: `toLowerCase` maps `Char.toLower` over the
characters, `includes` is substring containment, and the truthiness test
`!searchTerm.trim()` is the all-whitespace test (a string trims to empty
exactly when every character is whitespace). -/

/-- JavaScript `s.toLowerCase()`. -/
def jsToLower (s : String) : String :=
  ⟨s.data.map Char.toLower⟩

/-- Containment of `n` as a contiguous run inside `h`, by scanning every
start offset (the semantics of JavaScript `includes`). -/
def listIncludes (h n : List Char) : Bool :=
  (List.range (h.length + 1)).any fun i => n.isPrefixOf (h.drop i)

/-- JavaScript `hay.includes(needle)`. -/
def jsIncludes (hay needle : String) : Bool :=
  listIncludes hay.data needle.data

/-- The guard `!searchTerm.trim()`: true exactly when the string trims to
empty, i.e. every character is whitespace. -/
def trimmedEmpty (s : String) : Bool :=
  s.data.all fun c => c.isWhitespace

/-! ## Filter (the `filteredProjects` computation) -/

/-- The TS union type `RiskFilter = "All" | "High" | "Medium" | "Low"`. -/
inductive RiskFilter where
  | all
  | high
  | medium
  | low
deriving DecidableEq

/-- The comparison `riskFilter === "All" || p.riskLevel === riskFilter`. -/
def riskMatches : RiskFilter → RiskLevel → Bool
  | .all, _ => true
  | .high, .High => true
  | .medium, .Medium => true
  | .low, .Low => true
  | _, _ => false

/-- The filter predicate body of `mockProjects.filter(...)`:
`matchesSearch && matchesRisk && matchesUser`. -/
def projectMatches (p : ProjectRow) (searchTerm : String) (riskFilter : RiskFilter)
    (userFilter : String) : Bool :=
  let matchesSearch :=
    trimmedEmpty searchTerm
      || jsIncludes (jsToLower p.username) (jsToLower searchTerm)
      || jsIncludes (jsToLower p.projectName) (jsToLower searchTerm)
  let matchesRisk := riskMatches riskFilter p.riskLevel
  let matchesUser := userFilter == "All" || p.username == userFilter
  matchesSearch && matchesRisk && matchesUser

/-- The `filteredProjects` array. -/
def filteredProjects (projects : List ProjectRow) (searchTerm : String)
    (riskFilter : RiskFilter) (userFilter : String) : List ProjectRow :=
  projects.filter fun p => projectMatches p searchTerm riskFilter userFilter

/-- Spec-side view of a risk level as a filter value; a non-All filter is
stated to match exactly the projects carrying its own level. -/
def RiskFilter.ofLevel : RiskLevel → RiskFilter
  | .Low => .low
  | .Medium => .medium
  | .High => .high

/-! ## Sort (the `sortedProjects` computation)

`new Date(s).getTime()` is abstracted as a parse function
`String → Option ℚ`, `none` standing for `NaN`; the `Number.isNaN` guard
of the comparator becomes the `none` branch returning `0`. -/

inductive SortKey where
  | createdAt
  | updatedAt
  | totalWeightedScore
deriving DecidableEq

inductive SortDirection where
  | asc
  | desc
deriving DecidableEq

/-- The sort comparator passed to `[...filteredProjects].sort`.  Selects
`aVal`/`bVal` by `sortKey`, returns `0` when either is `NaN` (`none`),
else `aVal - bVal` with the sign flipped for descending. -/
def compareProjects (parse : String → Option ℚ) (sortKey : SortKey)
    (sortDir : SortDirection) (a b : ProjectRow) : ℚ :=
  let vals : Option ℚ × Option ℚ :=
    match sortKey with
    | .createdAt => (parse a.createdAt, parse b.createdAt)
    | .updatedAt => (parse a.updatedAt, parse b.updatedAt)
    | .totalWeightedScore => (some a.totalWeightedScore, some b.totalWeightedScore)
  match vals with
  | (some aVal, some bVal) =>
    let diff := aVal - bVal
    match sortDir with
    | .asc => diff
    | .desc => -diff
  | _ => 0

/-- The `sortedProjects` array: a stable sort of the filtered list by the
comparator (JavaScript `Array.prototype.sort` is required to be stable). -/
def sortedProjects (parse : String → Option ℚ) (sortKey : SortKey)
    (sortDir : SortDirection) (filtered : List ProjectRow) : List ProjectRow :=
  filtered.mergeSort fun a b => decide (compareProjects parse sortKey sortDir a b ≤ 0)

/-! ## Pagination -/

/-- `Math.max(1, Math.ceil(sortedProjects.length / pageSize))`; for
`pageSize > 0` the `Nat` expression `(len + pageSize - 1) / pageSize` is
exactly the ceiling of the real division. -/
def totalPages (sorted : List ProjectRow) (pageSize : Nat) : Nat :=
  max 1 ((sorted.length + pageSize - 1) / pageSize)

/-- `Math.min(currentPage, totalPages - 1)`. -/
def safePage (currentPage totalPagesVal : Nat) : Nat :=
  min currentPage (totalPagesVal - 1)

/-- `sortedProjects.slice(startIndex, startIndex + pageSize)` with
`startIndex = safePage * pageSize`. -/
def paginatedProjects (sorted : List ProjectRow) (pageSize currentPage : Nat) :
    List ProjectRow :=
  (sorted.drop (safePage currentPage (totalPages sorted pageSize) * pageSize)).take pageSize

/-- The `useEffect` that restores the page invariant: if
`currentPage > totalPages - 1` it sets the page to `totalPages - 1`,
otherwise it leaves it unchanged. -/
def clampPageEffect (currentPage totalPagesVal : Nat) : Nat :=
  if currentPage > totalPagesVal - 1 then totalPagesVal - 1 else currentPage

/-- The whole visible-rows pipeline: filter, sort, paginate. -/
def visibleRows (parse : String → Option ℚ) (sortKey : SortKey) (sortDir : SortDirection)
    (projects : List ProjectRow) (searchTerm : String) (riskFilter : RiskFilter)
    (userFilter : String) (pageSize currentPage : Nat) : List ProjectRow :=
  paginatedProjects
    (sortedProjects parse sortKey sortDir
      (filteredProjects projects searchTerm riskFilter userFilter))
    pageSize currentPage

/-! ## Dashboard UI state and event handlers

Embeds the `useState` cells touched by the filter/pagination controls and
the `onChange` handlers of the search input, the two filter selects and
the page-size select, each of which also calls `setCurrentPage(0)`. -/

structure DashboardState where
  searchTerm : String
  riskFilter : RiskFilter
  userFilter : String
  sortKey : SortKey
  sortDir : SortDirection
  pageSize : Nat
  currentPage : Nat
deriving DecidableEq

/-- Search input `onChange`: `setSearchTerm(v); setCurrentPage(0)`. -/
def onSearchChange (st : DashboardState) (v : String) : DashboardState :=
  { st with searchTerm := v, currentPage := 0 }

/-- Risk select `onChange`: `setRiskFilter(v); setCurrentPage(0)`. -/
def onRiskFilterChange (st : DashboardState) (v : RiskFilter) : DashboardState :=
  { st with riskFilter := v, currentPage := 0 }

/-- User select `onChange`: `setUserFilter(v); setCurrentPage(0)`. -/
def onUserFilterChange (st : DashboardState) (v : String) : DashboardState :=
  { st with userFilter := v, currentPage := 0 }

/-- Page-size select `onChange`: `setPageSize(v); setCurrentPage(0)`. -/
def onPageSizeChange (st : DashboardState) (v : Nat) : DashboardState :=
  { st with pageSize := v, currentPage := 0 }

/-! ## Mock sample projects

The three hard-coded sample projects (`mockProjects`), transcribed
verbatim; decimal scores become the corresponding rationals. -/

/-- First deviation row of project "1" (clause "Security", score 6). -/
def securityDeviation : DeviationRow :=
  { clause := "Security"
    baseline := "If there is any unauthorized handling or loss of, or inability to account for any Confidential Information ..."
    supplier := "For as long as any Confidential Information is in the Receiving Party\'s possession or control, the Receiving Party will protect and maintain the confidentiality and security ..."
    deviation := "Security obligations are less prescriptive than TD baseline and do not include explicit incident remediation steps."
    riskLevel := .High
    recommendation := "Align security obligations with TD baseline incident handling language."
    score := 6 }

/-- Second deviation row of project "1" (clause "Confidentiality", score 3). -/
def confidentialityDeviation : DeviationRow :=
  { clause := "Confidentiality"
    baseline := "Confidential Information does not include information that is or becomes public, independently developed, or obtained from a third party without breach ..."
    supplier := "\"Confidential Information\" means any non‑public proprietary information ..."
    deviation := "Confidentiality carve-outs narrowed; survival period reduced compared to TD baseline."
    riskLevel := .Medium
    recommendation := "Restore full TD carve‑outs and minimum survival period."
    score := 3 }

/-- Third deviation row of project "1" (clause "General provisions", score 3). -/
def generalProvisionsDeviation : DeviationRow :=
  { clause := "General provisions"
    baseline := "Agreement governed by the laws of Ontario, Canada ..."
    supplier := "Agreement governed by the laws of Delaware, USA ..."
    deviation := "Governing law moved away from TD\'s standard jurisdiction."
    riskLevel := .Medium
    recommendation := "Keep Ontario governing law unless approved as an exception."
    score := 3 }

/-- Fourth deviation row of project "1" (clause "Duration & termination", score 1). -/
def durationDeviation : DeviationRow :=
  { clause := "Duration & termination"
    baseline := "Either party may terminate for convenience upon 30 days\' written notice ..."
    supplier := "Supplier may terminate for convenience; TD may terminate only for cause ..."
    deviation := "TD termination for convenience removed."
    riskLevel := .Low
    recommendation := "Re‑introduce TD termination for convenience right."
    score := 1 }

def mockProject1 : ProjectRow :=
  { id := "1"
    username := "TAE7758"
    projectName := "TD NDA – High & Low Changes"
    createdAt := "2025-11-16T23:00:00Z"
    updatedAt := "2025-11-16T23:40:00Z"
    riskLevel := .Medium
    totalWeightedScore := 2.5
    supplierDocTitle := "Supplier NDA.docx"
    baselineDocTitle := "TD Baseline NDA.docx"
    supplierDocUrl := "/api/documents/supplier-nda"
    baselineDocUrl := "/api/documents/td-baseline-nda"
    deviations :=
      [securityDeviation, confidentialityDeviation, generalProvisionsDeviation,
        durationDeviation] }

def mockProject2 : ProjectRow :=
  { id := "2"
    username := "WYATT12"
    projectName := "OC Demo – Supplier ABC"
    createdAt := "2025-11-14T18:20:00Z"
    updatedAt := "2025-11-14T18:45:00Z"
    riskLevel := .High
    totalWeightedScore := 3.9
    supplierDocTitle := "Supplier OC.docx"
    baselineDocTitle := "TD Baseline OC.docx"
    supplierDocUrl := "/api/documents/supplier-oc"
    baselineDocUrl := "/api/documents/td-baseline-oc"
    deviations := [] }

def mockProject3 : ProjectRow :=
  { id := "3"
    username := "TAF7337"
    projectName := "New Model Output Test"
    createdAt := "2025-11-13T17:50:00Z"
    updatedAt := "2025-11-13T18:00:00Z"
    riskLevel := .Low
    totalWeightedScore := 0.7
    supplierDocTitle := "Supplier Model.docx"
    baselineDocTitle := "TD Baseline Model.docx"
    supplierDocUrl := "/api/documents/supplier-model"
    baselineDocUrl := "/api/documents/td-baseline-model"
    deviations := [] }

def mockProjects : List ProjectRow := [mockProject1, mockProject2, mockProject3]

/-! ## Deviation/Risk Summary modal

The numeric computations of `DeviationModal`: the normalization total,
per-row bar percentage, the `Math.min(pct, 100)` width, and the bar
colour class chosen by the score thresholds. -/

/-- `deviations.reduce((sum, d) => sum + d.score, 0)`. -/
def sumScores (devs : List DeviationRow) : ℚ :=
  devs.foldl (fun sum d => sum + d.score) 0

/-- `deviations.reduce(...) || 1`: the JavaScript `||` yields `1` exactly
when the sum is falsy, i.e. equal to `0` (no `NaN` can arise in `ℚ`). -/
def totalScore (devs : List DeviationRow) : ℚ :=
  let s := sumScores devs
  if s = 0 then 1 else s

/-- `const pct = (dev.score / totalScore) * 100`. -/
def barPct (devs : List DeviationRow) (d : DeviationRow) : ℚ :=
  (d.score / totalScore devs) * 100

/-- The rendered bar width `Math.min(pct, 100)` (in percent). -/
def barWidth (devs : List DeviationRow) (d : DeviationRow) : ℚ :=
  min (barPct devs d) 100

/-- `dev.score >= 6 ? "bg-red-500" : dev.score >= 3 ? "bg-amber-500" : "bg-emerald-500"`. -/
def barColour (d : DeviationRow) : String :=
  if d.score ≥ 6 then "bg-red-500" else if d.score ≥ 3 then "bg-amber-500" else "bg-emerald-500"

/-- The `deviations.map(...)` over the distribution card: one row per
deviation, carrying the clause label, the bar width and the bar colour. -/
def distributionRows (devs : List DeviationRow) : List (String × ℚ × String) :=
  devs.map fun d => (d.clause, barWidth devs d, barColour d)

/-! ## Document Viewer modal

The async fetch-and-render effect of `DocumentViewer` is embedded as a
total function over an explicit outcome type: the fetch either fails at
the network level, or yields a response with an `ok` flag and a byte
buffer; the subsequent `docxPreview.renderAsync` call either succeeds or
throws.  The `try`/`catch` of the effect maps every failure to the fixed
fallback notice, so the function below is total — no exception escapes
the boundary.  The effect never invokes `onClose`, which `runViewer`
records by returning the `open` flag unchanged. -/

inductive FetchResult where
  | netError
  | response (ok : Bool) (buffer : List Nat)
deriving DecidableEq

inductive RenderOutcome where
  | success
  | failure
deriving DecidableEq

/-- Content of the viewer container element: raw HTML or a rendered
document. -/
inductive ViewerContent where
  | html (s : String)
  | renderedDoc (buffer : List Nat)
deriving DecidableEq

/-- The fixed textual fallback notice assigned to `el.innerHTML` in the
`catch` branch. -/
def fallbackHtml : String :=
  "<p style=\'color:#b91c1c;font-size:12px\'>Document preview is unavailable. Please download and open locally.</p>"

/-- The body of the viewer `useEffect`: early-return when closed or the
URL is empty, otherwise fetch, check `res.ok`, clear and render, with the
`catch` branch writing the fallback notice. -/
def runViewerEffect (isOpen : Bool) (url : String) (content : ViewerContent)
    (fetched : FetchResult) (render : RenderOutcome) : ViewerContent :=
  if !isOpen || url == "" then content
  else
    match fetched with
    | .netError => .html fallbackHtml
    | .response ok buffer =>
      if !ok then .html fallbackHtml
      else
        match render with
        | .success => .renderedDoc buffer
        | .failure => .html fallbackHtml

/-- One full effect run: the resulting container content, paired with the
`open` flag of the modal afterwards (the effect has no access to `onClose`, so
the flag is unchanged). -/
def runViewer (isOpen : Bool) (url : String) (content : ViewerContent)
    (fetched : FetchResult) (render : RenderOutcome) : ViewerContent × Bool :=
  (runViewerEffect isOpen url content fetched render, isOpen)

/-! ## Supplier-NDA document route

`GET /api/documents/supplier-nda` from `route.ts`: reads
`path.join(process.cwd(), "public", "docs", "supplier.docx")` with
`fs.readFileSync` (which throws when the file is missing, modelled as
`Except.error`) and wraps the bytes in a 200 response with the DOCX
content type.  The file system is passed in as a partial map from paths
to byte lists. -/

structure HttpResponse where
  status : Nat
  contentType : String
  body : List Nat
deriving DecidableEq

/-- `path.join(process.cwd(), "public", "docs", "supplier.docx")`. -/
def supplierNdaPath (cwd : String) : String :=
  cwd ++ "/public/docs/supplier.docx"

def docxContentType : String :=
  "application/vnd.openxmlformats-officedocument.wordprocessingml.document"

/-- The route handler `GET`. -/
def supplierNdaGET (cwd : String) (fsRead : String → Option (List Nat)) :
    Except String HttpResponse :=
  match fsRead (supplierNdaPath cwd) with
  | none => .error "ENOENT: no such file or directory"
  | some fileBuffer =>
    .ok { status := 200, contentType := docxContentType, body := fileBuffer }

/-! ## Additional concrete data used by counterexamples -/

/-- A deviation row whose score is strictly between 0 and 1; the data
model places no lower bound other than 0 on clause scores. -/
def halfScoreDeviation : DeviationRow :=
  { clause := "Fractional clause"
    baseline := "baseline text"
    supplier := "supplier text"
    deviation := "deviation text"
    riskLevel := .Low
    recommendation := "recommendation text"
    score := 1/2 }

end ContractDashboard

namespace ContractDashboard

/-! ## Helper lemmas -/

/-- JavaScript `includes` agrees with the existence of a substring
decomposition. -/
theorem listIncludes_iff (h n : List Char) :
    listIncludes h n = true ↔ ∃ pre post : List Char, h = pre ++ n ++ post := by
  unfold listIncludes
  rw [List.any_eq_true]
  constructor
  · rintro ⟨i, _, hp⟩
    rw [List.isPrefixOf_iff_prefix] at hp
    obtain ⟨t, ht⟩ := hp
    refine ⟨h.take i, t, ?_⟩
    calc h = h.take i ++ h.drop i := (List.take_append_drop i h).symm
    _ = h.take i ++ (n ++ t) := by rw [ht]
    _ = h.take i ++ n ++ t := (List.append_assoc _ _ _).symm
  · rintro ⟨pre, post, rfl⟩
    refine ⟨pre.length, ?_, ?_⟩
    · rw [List.mem_range]
      simp only [List.length_append]
      omega
    · rw [List.isPrefixOf_iff_prefix]
      refine ⟨post, ?_⟩
      rw [List.append_assoc, List.drop_left]

/-- The Boolean risk-filter test agrees with the spec-side disjunction. -/
theorem riskMatches_iff (rf : RiskFilter) (lv : RiskLevel) :
    riskMatches rf lv = true ↔ rf = .all ∨ rf = .ofLevel lv := by
  cases rf <;> cases lv <;> simp [riskMatches, RiskFilter.ofLevel]

/-- The Boolean all-whitespace test agrees with the spec-side
quantification. -/
theorem trimmedEmpty_iff (s : String) :
    trimmedEmpty s = true ↔ ∀ c ∈ s.data, c.isWhitespace := by
  simp [trimmedEmpty, List.all_eq_true]

/-- The Boolean filter predicate agrees with the spec-side conjunction of
the three predicates. -/
theorem projectMatches_iff (p : ProjectRow) (s : String) (rf : RiskFilter) (uf : String) :
    projectMatches p s rf uf = true ↔
      ((∀ c ∈ s.data, c.isWhitespace) ∨
        (∃ pre post : List Char, (jsToLower p.username).data = pre ++ (jsToLower s).data ++ post) ∨
        (∃ pre post : List Char, (jsToLower p.projectName).data = pre ++ (jsToLower s).data ++ post)) ∧
      (rf = .all ∨ rf = .ofLevel p.riskLevel) ∧
      (uf = "All" ∨ p.username = uf) := by
  unfold projectMatches
  simp only [Bool.and_eq_true, Bool.or_eq_true]
  rw [jsIncludes, jsIncludes, listIncludes_iff, listIncludes_iff, riskMatches_iff,
    trimmedEmpty_iff, beq_iff_eq, beq_iff_eq]
  rw [or_assoc, and_assoc]

/-- Ceiling of a cast Nat division agrees with the add-pred-div formula. -/
theorem ceil_cast_div_eq (a b : Nat) (hb : 0 < b) :
    ⌈(a : ℚ) / (b : ℚ)⌉₊ = (a + b - 1) / b := by
  have hbq : (0 : ℚ) < (b : ℚ) := by exact_mod_cast hb
  apply le_antisymm
  · rw [Nat.ceil_le, div_le_iff₀ hbq]
    have h1 := Nat.div_add_mod (a + b - 1) b
    have h2 := Nat.mod_lt (a + b - 1) hb
    have key : a ≤ ((a + b - 1) / b) * b := by
      rw [Nat.mul_comm]
      generalize hX : b * ((a + b - 1) / b) = X at h1
      omega
    exact_mod_cast key
  · have hle := Nat.le_ceil ((a : ℚ) / (b : ℚ))
    rw [div_le_iff₀ hbq] at hle
    have ha : a ≤ ⌈(a : ℚ) / (b : ℚ)⌉₊ * b := by exact_mod_cast hle
    rw [Nat.mul_comm] at ha
    rw [Nat.div_le_iff_le_mul_add_pred hb]
    generalize hX : b * ⌈(a : ℚ) / (b : ℚ)⌉₊ = X at ha ⊢
    omega

/-! ## Claims -/

/-- C1 (amended): with the project list equal to the 3 sample projects and
risk filter High, the filtered list is a sublist of the singleton list of
the project with id "2": it equals that singleton whenever the search term
trims to empty, and for every search term it has at most one row. -/
theorem highFilter_result (s : String) :
    (filteredProjects mockProjects s RiskFilter.high "All" = [mockProject2] ∨
      filteredProjects mockProjects s RiskFilter.high "All" = []) ∧
    (trimmedEmpty s = true →
      filteredProjects mockProjects s RiskFilter.high "All" = [mockProject2]) := by
  have h1 : projectMatches mockProject1 s .high "All" = false := by
    simp [projectMatches, mockProject1, riskMatches]
  have h3 : projectMatches mockProject3 s .high "All" = false := by
    simp [projectMatches, mockProject3, riskMatches]
  have hfilter : ∀ b, projectMatches mockProject2 s .high "All" = b →
      filteredProjects mockProjects s RiskFilter.high "All" =
        if b then [mockProject2] else [] := by
    intro b hb
    simp [filteredProjects, mockProjects, List.filter, h1, h3, hb]
    cases b <;> simp
  constructor
  · cases hb : projectMatches mockProject2 s .high "All"
    · exact Or.inr (by simpa using hfilter false hb)
    · exact Or.inl (by simpa using hfilter true hb)
  · intro hs
    have hb : projectMatches mockProject2 s .high "All" = true := by
      simp [projectMatches, mockProject2, riskMatches, hs]
    simpa using hfilter true hb

/-- C1 witness: the empty search term yields exactly the project with
id "2". -/
theorem highFilter_result_witness :
    filteredProjects mockProjects "" RiskFilter.high "All" = [mockProject2] :=
  (highFilter_result "").2 (by decide)

/-- C1 counterexample: the search term "zzz" matches no project, so the
High filter yields zero rows, not one, refuting the claim for that search
term. -/
theorem highFilter_counterexample :
    filteredProjects mockProjects "zzz" RiskFilter.high "All" = [] ∧
    visibleRows (fun _ => none) SortKey.updatedAt SortDirection.desc mockProjects "zzz"
      RiskFilter.high "All" 10 0 = [] := by
  constructor
  · rfl
  · show paginatedProjects
      (sortedProjects _ _ _ (filteredProjects mockProjects "zzz" RiskFilter.high "All")) 10 0 = []
    have h : filteredProjects mockProjects "zzz" RiskFilter.high "All" = [] := rfl
    rw [h]
    simp [sortedProjects, paginatedProjects]

/-- C2: after the invariant-restoration effect the current page index is
re-clamped to pageCount - 1 whenever it exceeded it, and always ends
within [0, pageCount - 1]; the page count is at least 1. -/
theorem clampPage_invariant (parse : String → Option ℚ) (sortKey : SortKey)
    (sortDir : SortDirection) (projects : List ProjectRow) (s : String)
    (rf : RiskFilter) (uf : String) (pageSize p : Nat) :
    (p > totalPages (sortedProjects parse sortKey sortDir
        (filteredProjects projects s rf uf)) pageSize - 1 →
      clampPageEffect p (totalPages (sortedProjects parse sortKey sortDir
        (filteredProjects projects s rf uf)) pageSize)
        = totalPages (sortedProjects parse sortKey sortDir
            (filteredProjects projects s rf uf)) pageSize - 1) ∧
    clampPageEffect p (totalPages (sortedProjects parse sortKey sortDir
        (filteredProjects projects s rf uf)) pageSize)
      ≤ totalPages (sortedProjects parse sortKey sortDir
          (filteredProjects projects s rf uf)) pageSize - 1 ∧
    1 ≤ totalPages (sortedProjects parse sortKey sortDir
          (filteredProjects projects s rf uf)) pageSize := by
  refine ⟨?_, ?_, le_max_left 1 _⟩
  · intro hp
    simp [clampPageEffect, hp]
  · unfold clampPageEffect
    split <;> omega

/-- C2 witness: page index 5 over the 3 sample projects (page count 1) is
re-clamped to 0. -/
theorem clampPage_invariant_witness :
    clampPageEffect 5 (totalPages (sortedProjects (fun _ => none) SortKey.updatedAt
        SortDirection.desc (filteredProjects mockProjects "" RiskFilter.all "All")) 10)
      = totalPages (sortedProjects (fun _ => none) SortKey.updatedAt
          SortDirection.desc (filteredProjects mockProjects "" RiskFilter.all "All")) 10 - 1 := by
  apply (clampPage_invariant (fun _ => none) SortKey.updatedAt SortDirection.desc
    mockProjects "" RiskFilter.all "All" 10 5).1
  have hf : filteredProjects mockProjects "" RiskFilter.all "All" = mockProjects := rfl
  rw [hf]
  simp [totalPages, sortedProjects, mockProjects]

end ContractDashboard

namespace ContractDashboard

/-- C3 counterexample: a single deviation with score 1/2 gives
totalScore 1/2, while max(1, sum) would give 1, refuting the claimed
equality totalScore = max(1, sum of scores). -/
theorem totalScore_counterexample :
    totalScore [halfScoreDeviation] = 1/2 ∧
    max 1 (sumScores [halfScoreDeviation]) = 1 ∧
    totalScore [halfScoreDeviation] ≠ max 1 (sumScores [halfScoreDeviation]) := by
  norm_num [totalScore, sumScores, halfScoreDeviation]

/-- C3 (amended): the total equals the sum when the sum is nonzero and 1
when it is zero, so totalScore = max(1, sum) holds exactly when the sum is
zero or at least 1; the empty list yields total 1 and renders no
distribution rows. -/
theorem totalScore_floor (devs : List DeviationRow)
    (h : sumScores devs = 0 ∨ 1 ≤ sumScores devs) :
    totalScore devs = max 1 (sumScores devs) ∧
    totalScore [] = 1 ∧
    distributionRows ([] : List DeviationRow) = [] := by
  refine ⟨?_, by norm_num [totalScore, sumScores], by simp [distributionRows]⟩
  rcases h with h | h
  · simp [totalScore, h]
  · have hne : sumScores devs ≠ 0 := by
      intro h0
      rw [h0] at h
      norm_num at h
    rw [totalScore]
    simp only [hne, if_false]
    exact (max_eq_right h).symm

/-- C3 witness: the four sample deviations of project "1" sum to 13, so
the total agrees with max(1, 13). -/
theorem totalScore_floor_witness :
    totalScore mockProject1.deviations = max 1 (sumScores mockProject1.deviations) ∧
    totalScore [] = 1 ∧
    distributionRows ([] : List DeviationRow) = [] :=
  totalScore_floor mockProject1.deviations
    (Or.inr (by norm_num [sumScores, mockProject1, securityDeviation,
      confidentialityDeviation, generalProvisionsDeviation, durationDeviation]))

/-- C4: a project is in the filtered list iff it is in the project list and
the conjunction of the three predicates holds: the search term trims to
empty or is a case-insensitive substring of the username or of the project
name; the risk filter is All or equals the project risk level; the user
filter is All or equals the username. -/
theorem mem_filteredProjects_iff (projects : List ProjectRow) (s : String)
    (rf : RiskFilter) (uf : String) (p : ProjectRow) :
    p ∈ filteredProjects projects s rf uf ↔
      p ∈ projects ∧
        (((∀ c ∈ s.data, c.isWhitespace) ∨
          (∃ pre post : List Char, (jsToLower p.username).data = pre ++ (jsToLower s).data ++ post) ∨
          (∃ pre post : List Char, (jsToLower p.projectName).data = pre ++ (jsToLower s).data ++ post)) ∧
        (rf = .all ∨ rf = .ofLevel p.riskLevel) ∧
        (uf = "All" ∨ p.username = uf)) := by
  rw [filteredProjects, List.mem_filter, projectMatches_iff]

/-- C5: the visible page never exceeds the page size, and for a positive
page size the page count is max 1 (ceiling of filtered count / page
size). -/
theorem pagination_bounds (parse : String → Option ℚ) (sortKey : SortKey)
    (sortDir : SortDirection) (projects : List ProjectRow) (s : String)
    (rf : RiskFilter) (uf : String) (pageSize currentPage : Nat)
    (hps : 0 < pageSize) :
    (visibleRows parse sortKey sortDir projects s rf uf pageSize currentPage).length
        ≤ pageSize ∧
    totalPages (sortedProjects parse sortKey sortDir
        (filteredProjects projects s rf uf)) pageSize
      = max 1 ⌈((filteredProjects projects s rf uf).length : ℚ) / (pageSize : ℚ)⌉₊ := by
  constructor
  · simp only [visibleRows, paginatedProjects]
    exact List.length_take_le _ _
  · rw [ceil_cast_div_eq _ _ hps]
    simp [totalPages, sortedProjects]

/-- C5 witness: the default view over the 3 sample projects shows at most
10 rows and has page count max 1 (ceiling of 3/10) = 1. -/
theorem pagination_bounds_witness :
    (visibleRows (fun _ => none) SortKey.updatedAt SortDirection.desc mockProjects ""
        RiskFilter.all "All" 10 0).length ≤ 10 ∧
    totalPages (sortedProjects (fun _ => none) SortKey.updatedAt SortDirection.desc
        (filteredProjects mockProjects "" RiskFilter.all "All")) 10
      = max 1 ⌈((filteredProjects mockProjects "" RiskFilter.all "All").length : ℚ) / (10 : ℚ)⌉₊ :=
  pagination_bounds (fun _ => none) SortKey.updatedAt SortDirection.desc mockProjects ""
    RiskFilter.all "All" 10 0 (by decide)

/-- C6: every distribution bar has width min(100, score/totalScore*100)
percent and colour tier red for score at least 6, amber for score at least
3, green otherwise; on the four sample deviations of project "1" the
Security bar is 600/13 percent, which displays as 46.15 to two decimals,
with the red (high) tier. -/
theorem distributionBar_spec :
    (∀ (devs : List DeviationRow) (d : DeviationRow),
        barWidth devs d = min 100 ((d.score / totalScore devs) * 100)) ∧
    (∀ d : DeviationRow,
        (6 ≤ d.score → barColour d = "bg-red-500") ∧
        (3 ≤ d.score → d.score < 6 → barColour d = "bg-amber-500") ∧
        (d.score < 3 → barColour d = "bg-emerald-500")) ∧
    distributionRows mockProject1.deviations =
      [("Security", 600 / 13, "bg-red-500"),
       ("Confidentiality", 300 / 13, "bg-amber-500"),
       ("General provisions", 300 / 13, "bg-amber-500"),
       ("Duration & termination", 100 / 13, "bg-emerald-500")] ∧
    (600 : ℚ) / 13 = 6 / (6 + 3 + 3 + 1) * 100 ∧
    round ((600 : ℚ) / 13 * 100) = 4615 := by
  refine ⟨?_, ?_, ?_, by norm_num, ?_⟩
  · intro devs d
    rw [barWidth, barPct, min_comm]
  · intro d
    refine ⟨fun h6 => ?_, fun h3 h6 => ?_, fun h3 => ?_⟩
    · simp [barColour, h6]
    · simp [barColour, h3, not_le.mpr h6]
    · have h6 : d.score < 6 := lt_trans h3 (by norm_num)
      simp [barColour, not_le.mpr h3, not_le.mpr h6]
  · norm_num [distributionRows, barWidth, barPct, barColour, totalScore, sumScores,
      mockProject1, securityDeviation, confidentialityDeviation,
      generalProvisionsDeviation, durationDeviation]
  · have h : ((600 : ℚ) / 13 * 100 + 1 / 2) = 120013 / 26 := by norm_num
    rw [round_eq, h, Int.floor_eq_iff]
    constructor <;> norm_num

/-- C6 witness: the Security row (score 6) takes the red tier and the
min-form width over the sample deviation list of project "1". -/
theorem distributionBar_spec_witness :
    barColour securityDeviation = "bg-red-500" ∧
    barWidth mockProject1.deviations securityDeviation
      = min 100 ((securityDeviation.score / totalScore mockProject1.deviations) * 100) :=
  ⟨(distributionBar_spec.2.1 securityDeviation).1 (by norm_num [securityDeviation]),
    distributionBar_spec.1 mockProject1.deviations securityDeviation⟩

/-- C7: on every failed outcome of the fetch-and-render sequence of an
open viewer (network error, non-OK response, render exception) the content
area is replaced by the fixed fallback notice and the open flag is
unchanged, so the modal does not close; the effect is a total function, so
no exception escapes it. -/
theorem viewer_failure_fallback (url : String) (content : ViewerContent)
    (fetched : FetchResult) (render : RenderOutcome)
    (hurl : (url == "") = false)
    (hfail : fetched = .netError ∨ (∃ buffer, fetched = .response false buffer) ∨
      (∃ buffer, fetched = .response true buffer ∧ render = .failure)) :
    runViewer true url content fetched render = (.html fallbackHtml, true) := by
  rcases hfail with rfl | ⟨buffer, rfl⟩ | ⟨buffer, rfl, rfl⟩ <;>
    simp [runViewer, runViewerEffect, hurl]

/-- C7 witness: an HTTP 404 (non-OK response) on the supplier document URL
yields the fallback notice with the modal still open. -/
theorem viewer_failure_fallback_witness :
    runViewer true "/api/documents/supplier-nda" (.html "") (.response false []) .success
      = (.html fallbackHtml, true) :=
  viewer_failure_fallback "/api/documents/supplier-nda" (.html "") (.response false [])
    .success (by decide) (Or.inr (Or.inl ⟨[], rfl⟩))

/-- C8: under a date sort key, when either compared date fails to parse
the comparator returns 0 (the two projects compare as equal), in both
directions. -/
theorem invalidDate_compares_equal (parse : String → Option ℚ) (sortKey : SortKey)
    (sortDir : SortDirection) (a b : ProjectRow)
    (h : (sortKey = .createdAt ∧ (parse a.createdAt = none ∨ parse b.createdAt = none)) ∨
         (sortKey = .updatedAt ∧ (parse a.updatedAt = none ∨ parse b.updatedAt = none))) :
    compareProjects parse sortKey sortDir a b = 0 := by
  rcases h with ⟨rfl, h | h⟩ | ⟨rfl, h | h⟩
  · cases hb : parse b.createdAt <;> simp [compareProjects, h, hb]
  · cases ha : parse a.createdAt <;> simp [compareProjects, h, ha]
  · cases hb : parse b.updatedAt <;> simp [compareProjects, h, hb]
  · cases ha : parse a.updatedAt <;> simp [compareProjects, h, ha]

/-- C8 witness: with a parser that fails on every date string, the two
sample projects compare as equal under createdAt in both directions. -/
theorem invalidDate_compares_equal_witness :
    compareProjects (fun _ => none) SortKey.createdAt SortDirection.asc
      mockProject1 mockProject2 = 0 ∧
    compareProjects (fun _ => none) SortKey.createdAt SortDirection.desc
      mockProject1 mockProject2 = 0 :=
  ⟨invalidDate_compares_equal (fun _ => none) SortKey.createdAt SortDirection.asc
      mockProject1 mockProject2 (Or.inl ⟨rfl, Or.inl rfl⟩),
    invalidDate_compares_equal (fun _ => none) SortKey.createdAt SortDirection.desc
      mockProject1 mockProject2 (Or.inl ⟨rfl, Or.inl rfl⟩)⟩

/-- C9: when the stored DOCX file exists, the supplier-nda GET handler
returns status 200, the raw stored bytes, and the DOCX content type. -/
theorem supplierNda_route_ok (cwd : String) (fsRead : String → Option (List Nat))
    (bytes : List Nat) (h : fsRead (supplierNdaPath cwd) = some bytes) :
    supplierNdaGET cwd fsRead =
      .ok { status := 200
            contentType :=
              "application/vnd.openxmlformats-officedocument.wordprocessingml.document"
            body := bytes } := by
  simp [supplierNdaGET, h, docxContentType]

/-- C9 witness: a file system holding a concrete byte list at the supplier
path yields 200 with those bytes and the DOCX content type. -/
theorem supplierNda_route_ok_witness :
    supplierNdaGET "/app" (fun _ => some [80, 75, 3, 4]) =
      .ok { status := 200
            contentType :=
              "application/vnd.openxmlformats-officedocument.wordprocessingml.document"
            body := [80, 75, 3, 4] } :=
  supplierNda_route_ok "/app" (fun _ => some [80, 75, 3, 4]) [80, 75, 3, 4] rfl

/-- C10: every change handler for the search term, risk filter, user
filter or page size resets the current page index to 0, whatever it was
before. -/
theorem filterChange_resets_page (st : DashboardState) (s : String) (rf : RiskFilter)
    (uf : String) (n : Nat) :
    (onSearchChange st s).currentPage = 0 ∧
    (onRiskFilterChange st rf).currentPage = 0 ∧
    (onUserFilterChange st uf).currentPage = 0 ∧
    (onPageSizeChange st n).currentPage = 0 :=
  ⟨rfl, rfl, rfl, rfl⟩

end ContractDashboard
